import Mathlib

/-!
Verification development for `avalanche.py`, a grammar-directed fuzzer.

The Python source is shallowly embedded: the global `random` module is
modelled as an explicit stream of rationals threaded through every
operation, Python lists become Lean lists, the mutable symbol table and
generation state become records passed explicitly, and every fallible
operation returns `Except Err`.  Uncaught Python exceptions
(`TypeError`, `ValueError`, `KeyError`, `IndexError`, recursion limits)
are modelled by the `Err.host` constructor, `AssertionError` by
`Err.assertion`; the three library error classes keep their own
constructors.
-/

namespace Avalanche

/-- The five ways an embedded operation can fail.  `parse`, `integrity` and
`generation` correspond to the source's `ParseError`, `IntegrityError` and
`GenerationError`; `assertion` models Python `AssertionError` raised inside
`_WeightedChoice`; `host` models uncaught interpreter-level exceptions
(`TypeError`, `ValueError`, `KeyError`, `IndexError`). -/
inductive Err where
  | parse (msg : String)
  | integrity (msg : String)
  | generation (msg : String)
  | assertion (msg : String)
  | host (msg : String)
deriving Repr, DecidableEq

/-- Does an error belong to the three error kinds documented by the library
(`ParseError`, `IntegrityError`, `GenerationError`)? -/
def Err.isDocumented : Err → Bool
  | .parse _ => true
  | .integrity _ => true
  | .generation _ => true
  | _ => false

/-- The random source: the global `random` module is modelled as an explicit
stream of rational draws.  Each primitive consumes the head of the stream. -/
abbrev RStream := List ℚ

/-- Consume one draw from the stream (an exhausted stream yields 0; theorems
always supply sufficiently long streams). -/
def rdraw (s : RStream) : ℚ × RStream :=
  match s with
  | [] => (0, [])
  | q :: r => (q, r)

/-- Python `int()` applied to a number: truncation toward zero. -/
def pyTrunc (q : ℚ) : ℤ :=
  if 0 ≤ q then q.floor else -(-q).floor

/-- Python `random.randint(lo, hi)`: a uniformly random integer in
`[lo, hi]`.  The draw at the head of the stream is folded onto the interval;
`lo > hi` raises `ValueError` as in `random.randrange`. -/
def pyRandint (lo hi : ℤ) (s : RStream) : Except Err (ℤ × RStream) :=
  if hi < lo then .error (.host "ValueError: empty range for randrange")
  else
    let (q, s') := rdraw s
    .ok (lo + (q.floor - lo) % (hi - lo + 1), s')

/-- Python `random.choice(xs)` on a list: uniform element; empty sequence
raises `IndexError`. -/
def pyChoiceList {α : Type} (xs : List α) (s : RStream) : Except Err (α × RStream) :=
  match xs with
  | [] => .error (.host "IndexError: cannot choose from an empty sequence")
  | x :: rest =>
    let (q, s') := rdraw s
    .ok ((x :: rest).getD (q.floor.toNat % (x :: rest).length) x, s')

/-- Output values: Python `str` for `TextSymbol`, `bytes` for `BinSymbol`. -/
inductive Value where
  | text (s : String)
  | bin (b : List ℕ)
deriving Repr, DecidableEq

/-- Python `len(value)` for an output value. -/
def Value.len : Value → ℕ
  | .text s => s.length
  | .bin b => b.length

/-- The `isinstance(value, type(self.output[0]))` check: do two values have
the same Python type? -/
def Value.sameType : Value → Value → Bool
  | .text _, .text _ => true
  | .bin _, .bin _ => true
  | _, _ => false

/-- Python `type(v).__name__` for an output value. -/
def Value.typeName : Value → String
  | .text _ => "str"
  | .bin _ => "bytes"

/-! ## The weighted-choice primitive

Parallel `values` / `weights` lists with a running `total`.  The `'+'`
weight sentinel accepted by the source's `append` is resolved by
`ChoiceSymbol.normalize` before any `choice`/`sample` call, so at
generation time every weight is numeric; the embedding carries the
resolved rational weights. -/

structure WeightedChoice (α : Type) where
  total : ℚ
  values : List α
  weights : List ℚ
deriving Repr

/-- Model of `_WeightedChoice.append` with a numeric weight. -/
def WeightedChoice.append {α : Type} (wc : WeightedChoice α) (v : α) (w : ℚ) :
    WeightedChoice α :=
  ⟨wc.total + w, wc.values ++ [v], wc.weights ++ [w]⟩

/-- Build a `_WeightedChoice` by successive appends. -/
def wcOfList {α : Type} (alts : List (α × ℚ)) : WeightedChoice α :=
  alts.foldl (fun wc vw => wc.append vw.1 vw.2) ⟨0, [], []⟩

/-- The subtraction walk shared by `choice`: subtract weights from the
target until it goes negative; falling off the end raises the
`AssertionError` from the source's `for`/`else`. -/
def chooseWalk {α : Type} : List ℚ → List α → ℚ → Except Err α
  | w :: ws, v :: vs, target =>
    if target - w < 0 then .ok v else chooseWalk ws vs (target - w)
  | _, _, _ => .error (.assertion "Too much total weight?")

/-- Model of `_WeightedChoice.choice`: draw `uniform(0, total)` and walk. -/
def WeightedChoice.choice {α : Type} (wc : WeightedChoice α) (s : RStream) :
    Except Err (α × RStream) :=
  let (u, s') := rdraw s
  match chooseWalk wc.weights wc.values u with
  | .error e => .error e
  | .ok v => .ok (v, s')

/-- The walk used by `sample`: like `chooseWalk` but also deletes the picked
entry from both lists and reports its weight. -/
def sampleWalk {α : Type} : List ℚ → List α → ℚ → Option (α × ℚ × List ℚ × List α)
  | w :: ws, v :: vs, target =>
    if target - w < 0 then some (v, w, ws, vs)
    else
      match sampleWalk ws vs (target - w) with
      | none => none
      | some (r, rw, ws', vs') => some (r, rw, w :: ws', v :: vs')
  | _, _, _ => none

/-- The `while k and total` loop of `_WeightedChoice.sample`, recursing on
`k`: the loop stops when `k` picks were made or the running total reaches
zero, whichever comes first. -/
def sampleLoop {α : Type} : ℕ → List ℚ → List α → ℚ → RStream →
    Except Err (List α × RStream)
  | 0, _, _, _, s => .ok ([], s)
  | Nat.succ k, weights, values, total, s =>
    if total = 0 then .ok ([], s)
    else
      let (u, s') := rdraw s
      match sampleWalk weights values u with
      | none => .error (.assertion "Too much total weight?")
      | some (v, w, ws', vs') =>
        match sampleLoop k ws' vs' (total - w) s' with
        | .error e => .error e
        | .ok (res, s'') => .ok (v :: res, s'')

/-- Model of `_WeightedChoice.sample(k)`: weighted draws without replacement, on
copies of the lists, reducing the running total after each pick. -/
def WeightedChoice.sample {α : Type} (wc : WeightedChoice α) (k : ℕ) (s : RStream) :
    Except Err (List α × RStream) :=
  sampleLoop k wc.weights wc.values wc.total s

/-! ## The symbol model

One tagged variant per symbol class of the source.  Names are the fully
qualified post-`normalize` names (friendly prefixes already substituted);
the symbol table is an association list keyed by them.  A repeat bound is
either a number or the `"*"` string that the `_RE_DEFN` token pattern
`(\d+|\*)` lets through. -/

/-- A repeat bound as stored by `_Symbol._parse`: `int(match.group("a"))`
for digits, the literal string `"*"` otherwise. -/
inductive Bound where
  | num (n : ℕ)
  | star
deriving Repr, DecidableEq

/-- The post-normalization symbol kinds.  `choice` carries the resolved
`(values, weights)` pairs together with the maintained `total`; `func`
arguments are numeric literals or child symbol names; `textChoice` is the
`_TextChoiceSymbol` used by regex character sets. -/
inductive SymKind where
  | text (value : String)
  | bin (value : List ℕ)
  | textChoice (value : String)
  | concat (children : List String)
  | choice (alts : List (List String × ℚ)) (total : ℚ)
  | repSym (children : List String) (lo hi : Bound)
  | repSample (children : List String) (lo hi : Bound) (sampleIdx : ℕ)
  | func (fname : String) (args : List (ℚ ⊕ String))
  | ref (target : String)
deriving Repr, DecidableEq

/-- The shared `_Symbol` attributes: `can_terminate` is tri-state
(`none` = unknown), `choicesTerminate` mirrors
`ChoiceSymbol._choices_terminate` (empty for non-choices). -/
structure SymEntry where
  kind : SymKind
  canTerm : Option Bool
  choicesTerminate : List (Option Bool)
  lineNo : ℕ
deriving Repr, DecidableEq

/-- The `children()` method of each symbol class. -/
def SymKind.children : SymKind → List String
  | .text _ => []
  | .bin _ => []
  | .textChoice _ => []
  | .concat cs => cs
  | .choice alts _ => (alts.map Prod.fst).flatten
  | .repSym cs _ _ => cs
  | .repSample cs _ _ _ => cs
  | .func _ args => args.filterMap (fun a => match a with
      | .inl _ => none
      | .inr n => some n)
  | .ref t => [t]

/-- A registered callable: receives the evaluated arguments (numbers
pass through, symbol arguments arrive as generated values) and the random
stream, and returns the value to append. -/
def FuncImpl : Type := List (ℚ ⊕ Value) → RStream → Except Err (Value × RStream)

/-- A constructed `Grammar`: symbol table, tracked-name set, registered
callables and the soft length limit (`None` disables it). -/
structure Grammar where
  symtab : List (String × SymEntry)
  tracked : List String
  funcs : List (String × FuncImpl)
  limit : Option ℕ

/-- Model of `Grammar.is_limit_exceeded`. -/
def Grammar.isLimitExceeded (g : Grammar) (len : ℕ) : Bool :=
  match g.limit with
  | none => false
  | some l => l ≤ len

/-! ## Generation state -/

/-- An entry of `gstate.symstack`: a plain symbol name, or one of the
`('unwind', name)` / `('untrack', name)` control tuples. -/
inductive StackItem where
  | sym (name : String)
  | unwind (name : String)
  | untrack (name : String)
deriving Repr, DecidableEq

/-- Model of `_GenState`: the stack (top at the head), the instances map for
tracked symbols, the output buffer in append order, and the cumulative
output length. -/
structure GenState where
  symstack : List StackItem
  instances : List (String × List String)
  output : List Value
  length : ℕ
deriving Repr, DecidableEq

/-- Model of `_GenState.append`: the value must have the same type as the first
value ever appended, otherwise a `GenerationError` is raised. -/
def GenState.append (st : GenState) (v : Value) : Except Err GenState :=
  match st.output with
  | [] => .ok ⟨st.symstack, st.instances, [v], st.length + v.len⟩
  | v0 :: _ =>
    if v.sameType v0 then
      .ok ⟨st.symstack, st.instances, st.output ++ [v], st.length + v.len⟩
    else
      .error (.generation ("Wrong value type generated, expecting " ++
        v0.typeName ++ ", got " ++ v.typeName))

/-- Python `"".join` over a slice of the output buffer (used when capturing a
tracked instance); joining a `bytes` value into a `str` is a host
`TypeError`. -/
def joinStrVals : List Value → Except Err String
  | [] => .ok ""
  | .text t :: rest =>
    match joinStrVals rest with
    | .error e => .error e
    | .ok r => .ok (t ++ r)
  | .bin _ :: _ => .error (.host "TypeError: sequence item: expected str instance, bytes found")

/-- Model of `gstate.instances[name].append(instance)`; a missing key is a host
`KeyError` (the constructor seeds every tracked name, so this cannot fire
on a constructed grammar). -/
def addInstance (inst : List (String × List String)) (n : String) (v : String) :
    Except Err (List (String × List String)) :=
  match inst.lookup n with
  | none => .error (.host "KeyError")
  | some _ => .ok (inst.map (fun p => if p.1 = n then (p.1, p.2 ++ [v]) else p))

/-- The `try "".join / except TypeError: b"".join` at the end of
`Grammar.generate`: all-text output joins to a string (empty output gives
`""`), all-bytes output joins to bytes, a mix raises `TypeError`. -/
def joinOutput (out : List Value) : Except Err Value :=
  if out.all (fun v => match v with | .text _ => true | .bin _ => false) then
    .ok (.text (out.foldl (fun acc v => acc ++ (match v with
      | .text t => t
      | .bin _ => "")) ""))
  else if out.all (fun v => match v with | .bin _ => true | .text _ => false) then
    .ok (.bin (out.foldl (fun acc v => acc ++ (match v with
      | .bin b => b
      | .text _ => [])) []))
  else .error (.host "TypeError: cannot join mixed str and bytes output")

/-- Build the terminators-only `_WeightedChoice` used by
`ChoiceSymbol.generate` once the length limit is exceeded. -/
def buildTerminators (alts : List (List String × ℚ)) (terms : List (Option Bool)) :
    WeightedChoice (List String) :=
  wcOfList ((alts.zip terms).filterMap (fun p =>
    if p.2 = some true then some p.1 else none))

/-- Model of `random.randint` on stored repeat bounds: a `"*"` bound reaches integer
arithmetic inside `randint` and raises a host `TypeError`. -/
def pyRandintB (lo hi : Bound) (s : RStream) : Except Err (ℕ × RStream) :=
  match lo, hi with
  | .num a, .num b =>
    match pyRandint (a : ℤ) (b : ℤ) s with
    | .error e => .error e
    | .ok (n, s') => .ok (n.toNat, s')
  | _, _ => .error (.host "TypeError: randint bound is str, not int")

/-- The repetition-count logic shared by `RepeatSymbol.generate` and
`RepeatSampleSymbol.generate`: once the limit is exceeded, a
non-terminating symbol emits nothing (`none`) and a terminating one uses
`min`; below the limit the count is
`randint(min, randint(min, max))`. -/
def repeatReps (g : Grammar) (e : SymEntry) (lo hi : Bound) (len : ℕ) (s : RStream) :
    Except Err (Option ℕ × RStream) :=
  if g.isLimitExceeded len then
    if e.canTerm = some true then
      match lo with
      | .num a => .ok (some a, s)
      | .star => .error (.host "TypeError: sequence multiplied by str reps")
    else .ok (none, s)
  else
    match pyRandintB lo hi s with
    | .error err => .error err
    | .ok (m, s₁) =>
      match pyRandintB lo (.num m) s₁ with
      | .error err => .error err
      | .ok (r, s₂) => .ok (some r, s₂)

/-! ## The generation loop

`Grammar.generate` is an explicit stack machine.  `symGen` is the
per-symbol `generate` dispatch; `genLoop` is the `while gstate.symstack`
loop, with the `tracking` list that the source keeps as a local; and
`evalFuncArgs` is the argument loop of `FuncSymbol.generate`, which runs a
nested generation (sharing the instances map) for every non-numeric
argument.  All three recurse on an explicit fuel parameter — the source
relies on host recursion and unbounded iteration; running out of fuel is
reported as a host recursion error and every theorem supplies ample
fuel. -/

mutual

/-- Per-symbol `generate(gstate)` dispatch.  The stack grows at the head:
Python's `symstack.extend(reversed(children))` is `children ++ symstack`
here, so the pop order is unchanged. -/
def symGen (fuel : ℕ) (g : Grammar) (e : SymEntry) (st : GenState) (s : RStream) :
    Except Err (GenState × RStream) :=
  match fuel with
  | 0 => .error (.host "RecursionError")
  | fuel + 1 =>
    match e.kind with
    | .text v =>
      match st.append (.text v) with
      | .error err => .error err
      | .ok st' => .ok (st', s)
    | .bin v =>
      match st.append (.bin v) with
      | .error err => .error err
      | .ok st' => .ok (st', s)
    | .textChoice v =>
      match pyChoiceList v.data s with
      | .error err => .error err
      | .ok (c, s') =>
        match st.append (.text (String.mk [c])) with
        | .error err => .error err
        | .ok st' => .ok (st', s')
    | .concat cs =>
      .ok (⟨cs.map .sym ++ st.symstack, st.instances, st.output, st.length⟩, s)
    | .choice alts total =>
      let wc : WeightedChoice (List String) :=
        if g.isLimitExceeded st.length ∧ e.canTerm = some true then
          buildTerminators alts e.choicesTerminate
        else ⟨total, alts.map Prod.fst, alts.map Prod.snd⟩
      match wc.choice s with
      | .error (.assertion m) => .error (.generation m)
      | .error err => .error err
      | .ok (children, s') =>
        .ok (⟨children.map .sym ++ st.symstack, st.instances, st.output, st.length⟩, s')
    | .repSym cs lo hi =>
      match repeatReps g e lo hi st.length s with
      | .error err => .error err
      | .ok (none, s') => .ok (st, s')
      | .ok (some reps, s') =>
        .ok (⟨(List.replicate reps cs).flatten.map .sym ++ st.symstack,
              st.instances, st.output, st.length⟩, s')
    | .repSample cs lo hi idx =>
      match repeatReps g e lo hi st.length s with
      | .error err => .error err
      | .ok (none, s') => .ok (st, s')
      | .ok (some reps, s') =>
        match cs.get? idx with
        | none => .error (.host "IndexError: sample_idx out of range")
        | some cname =>
          match g.symtab.lookup cname with
          | none => .error (.host "KeyError")
          | some ce =>
            match ce.kind with
            | .choice alts total =>
              match WeightedChoice.sample
                  ⟨total, alts.map Prod.fst, alts.map Prod.snd⟩ reps s' with
              | .error (.assertion m) => .error (.generation m)
              | .error err => .error err
              | .ok (sels, s'') =>
                let pre := cs.take idx
                let post := cs.drop (idx + 1)
                .ok (⟨(sels.map (fun sel => pre ++ sel ++ post)).flatten.map .sym
                        ++ st.symstack, st.instances, st.output, st.length⟩, s'')
            | _ => .error (.host "AttributeError: symbol has no sample method")
    | .func fname args =>
      match evalFuncArgs fuel g args st.instances s with
      | .error err => .error err
      | .ok (argVals, inst', s') =>
        match g.funcs.lookup fname with
        | none => .error (.host "KeyError")
        | some impl =>
          match impl argVals s' with
          | .error err => .error err
          | .ok (ret, s'') =>
            match GenState.append ⟨st.symstack, inst', st.output, st.length⟩ ret with
            | .error err => .error err
            | .ok st' => .ok (st', s'')
    | .ref target =>
      match st.instances.lookup target with
      | none => .error (.host "KeyError")
      | some [] =>
        -- no instance captured yet: dispatch the target's generate directly
        match g.symtab.lookup target with
        | none => .error (.host "KeyError")
        | some te => symGen fuel g te st s
      | some (i :: is) =>
        match pyChoiceList (i :: is) s with
        | .error err => .error err
        | .ok (v, s') =>
          match st.append (.text v) with
          | .error err => .error err
          | .ok st' => .ok (st', s')

/-- The argument loop of `FuncSymbol.generate`: numeric literals pass
through; each symbol-name argument runs a nested generation from a fresh
state that shares the instances map, and its joined output becomes the
argument value. -/
def evalFuncArgs (fuel : ℕ) (g : Grammar) (args : List (ℚ ⊕ String))
    (inst : List (String × List String)) (s : RStream) :
    Except Err (List (ℚ ⊕ Value) × List (String × List String) × RStream) :=
  match fuel with
  | 0 => .error (.host "RecursionError")
  | fuel + 1 =>
    match args with
    | [] => .ok ([], inst, s)
    | .inl q :: rest =>
      match evalFuncArgs fuel g rest inst s with
      | .error err => .error err
      | .ok (vs, inst', s') => .ok (.inl q :: vs, inst', s')
    | .inr name :: rest =>
      match genLoop fuel g ⟨[.sym name], inst, [], 0⟩ [] s with
      | .error err => .error err
      | .ok (ast, s') =>
        match joinOutput ast.output with
        | .error err => .error err
        | .ok v =>
          match evalFuncArgs fuel g rest ast.instances s' with
          | .error err => .error err
          | .ok (vs, inst', s'') => .ok (.inr v :: vs, inst', s'')

/-- The main `while gstate.symstack` loop of `Grammar.generate`.
`tracking` holds the `(name, output index)` pairs for open `untrack`
markers; a popped tracked name pushes its `untrack` marker below the
`unwind` marker and dispatches the symbol. -/
def genLoop (fuel : ℕ) (g : Grammar) (st : GenState)
    (tracking : List (String × ℕ)) (s : RStream) :
    Except Err (GenState × RStream) :=
  match fuel with
  | 0 => .error (.host "RecursionError")
  | fuel + 1 =>
    match st.symstack with
    | [] => .ok (st, s)
    | .unwind _ :: rest =>
      genLoop fuel g ⟨rest, st.instances, st.output, st.length⟩ tracking s
    | .untrack n :: rest =>
      match tracking with
      | [] => .error (.assertion "Tracking mismatch")
      | (tn, tlen) :: trest =>
        if n = tn then
          match joinStrVals (st.output.drop tlen) with
          | .error err => .error err
          | .ok instStr =>
            match addInstance st.instances n instStr with
            | .error err => .error err
            | .ok inst' =>
              genLoop fuel g ⟨rest, inst', st.output, st.length⟩ trest s
        else .error (.assertion "Tracking mismatch")
    | .sym n :: rest =>
      let isTracked := g.tracked.contains n
      let stack1 := if isTracked then StackItem.untrack n :: rest else rest
      let tracking1 := if isTracked then (n, st.output.length) :: tracking else tracking
      match g.symtab.lookup n with
      | none => .error (.host "KeyError")
      | some e =>
        match symGen fuel g e
            ⟨StackItem.unwind n :: stack1, st.instances, st.output, st.length⟩ s with
        | .error err => .error err
        | .ok (st', s') => genLoop fuel g st' tracking1 s'

end

/-- Model of `Grammar.generate(start)` from scratch: seed the stack with the start
name and the instances map with an empty list per tracked symbol, run the
loop, and return its final state. -/
def Grammar.generateFull (g : Grammar) (fuel : ℕ) (start : String) (s : RStream) :
    Except Err (GenState × RStream) :=
  genLoop fuel g ⟨[.sym start], g.tracked.map (fun n => (n, [])), [], 0⟩ [] s

/-- Model of `Grammar.generate(start)` including the final join of the output
buffer. -/
def Grammar.generate (g : Grammar) (fuel : ℕ) (start : String) (s : RStream) :
    Except Err (Value × RStream) :=
  match g.generateFull fuel start s with
  | .error err => .error err
  | .ok (st, s') =>
    match joinOutput st.output with
    | .error err => .error err
    | .ok v => .ok (v, s')

/-! ## Termination analysis (`Grammar.sanity_check`, lines 404-414)

`can_terminate` marking is iterated to a fixpoint and then every symbol
must either terminate or have a terminating child.  `Text`, `Bin` and
`Regex` symbols already carry `can_terminate = True` from construction;
all other symbols start at `none`. -/

/-- Truth of `all(grmr.symtab[c].can_terminate for c in children)`: every child is
present and marked `True` (a truthy tri-state). -/
def childrenTerm (tbl : List (String × SymEntry)) (cs : List String) : Bool :=
  cs.all (fun c => match tbl.lookup c with
    | some e => e.canTerm = some true
    | none => false)

/-- One `update_can_terminate` call on a symbol whose flag is still
unknown, returning the updated entry and whether anything changed.
`ChoiceSymbol` overrides the default all-children rule: it marks each
alternative whose children all terminate and becomes terminating if any
alternative does; every other class (including `RefSymbol`, whose children
are exactly its target) uses the default rule. -/
def updateCanTerminate (tbl : List (String × SymEntry)) (e : SymEntry) :
    SymEntry × Bool :=
  match e.kind with
  | .choice alts _ =>
    let terms' := (alts.zip e.choicesTerminate).map (fun p =>
      if childrenTerm tbl p.1.1 then some true else p.2)
    if terms'.any (fun t => t = some true) then
      (⟨e.kind, some true, terms', e.lineNo⟩, true)
    else (⟨e.kind, e.canTerm, terms', e.lineNo⟩, false)
  | _ =>
    if childrenTerm tbl e.kind.children then
      (⟨e.kind, some true, e.choicesTerminate, e.lineNo⟩, true)
    else (e, false)

/-- One pass of the `do_over` loop: visit the table in order, updating in
place each symbol whose `can_terminate` is still unknown (updates made
earlier in the pass are visible to later symbols, as with the source's
in-place mutation). -/
def termPass (tbl0 : List (String × SymEntry)) : List (String × SymEntry) × Bool :=
  (tbl0.map Prod.fst).foldl
    (fun acc n =>
      match acc.1.lookup n with
      | none => acc
      | some e =>
        if e.canTerm = none then
          let r := updateCanTerminate acc.1 e
          (acc.1.map (fun p => if p.1 = n then (n, r.1) else p), r.2 || acc.2)
        else acc)
    (tbl0, false)

/-- The `while do_over` loop, with fuel (each productive pass marks at
least one new symbol, so `tbl.length + 1` passes always reach the
fixpoint). -/
def termLoop : ℕ → List (String × SymEntry) → List (String × SymEntry)
  | 0, tbl => tbl
  | n + 1, tbl =>
    let r := termPass tbl
    if r.2 then termLoop n r.1 else r.1

/-- The final check: the first symbol (in table order) that neither
terminates nor has a terminating child raises `IntegrityError`. -/
def termCheck (tbl : List (String × SymEntry)) : Except Err Unit :=
  match tbl.find? (fun p =>
      !(p.2.canTerm = some true ||
        p.2.kind.children.any (fun c => match tbl.lookup c with
          | some e => e.canTerm = some true
          | none => false))) with
  | some p => .error (.integrity
      ("Symbol has no paths to termination (infinite recursion?): " ++ p.1))
  | none => .ok ()

/-- The termination-analysis part of `Grammar.sanity_check`: iterate the
marking to a fixpoint, then run the check. -/
def sanityTerminate (tbl : List (String × SymEntry)) :
    Except Err (List (String × SymEntry)) :=
  let t := termLoop (tbl.length + 1) tbl
  match termCheck t with
  | .error err => .error err
  | .ok _ => .ok t

/-! ## The `RegexSymbol` sub-parser (`RegexSymbol.parse`, lines 931-1001)

The sub-parser is token-driven by `_RE_PARSE`; anything the token pattern
does not match is consumed as a one-character literal.  Characters are
handled as `List Char`; the opening and closing curly braces are referred
to through named constants. -/

/-- The opening curly brace. -/
def lbrace : Char := Char.ofNat 123

/-- The closing curly brace. -/
def rbrace : Char := Char.ofNat 125

/-- Python's `\s` class (space, tab, newline, return, formfeed, vtab). -/
def pyIsSpace (c : Char) : Bool :=
  c = ' ' || c = Char.ofNat 9 || c = Char.ofNat 10 || c = Char.ofNat 13 ||
  c = Char.ofNat 12 || c = Char.ofNat 11

/-- Skip `\s*`. -/
def skipPyWs : List Char → List Char
  | [] => []
  | c :: rest => if pyIsSpace c then skipPyWs rest else c :: rest

/-- Span of `\d+`: the leading digits and the remainder. -/
def takeDigits : List Char → List Char × List Char
  | [] => ([], [])
  | c :: rest =>
    if c.isDigit then
      let r := takeDigits rest
      (c :: r.1, r.2)
    else ([], c :: rest)

/-- Decimal value of a digit run. -/
def digitsToNat (ds : List Char) : ℕ :=
  ds.foldl (fun a c => 10 * a + (c.toNat - 48)) 0

/-- Model of `TextSymbol.ESCAPES`: `\f \n \r \t \v` become the control characters,
every other escaped character stands for itself. -/
def escChar (c : Char) : Char :=
  if c = 'f' then Char.ofNat 12
  else if c = 'n' then Char.ofNat 10
  else if c = 'r' then Char.ofNat 13
  else if c = 't' then Char.ofNat 9
  else if c = 'v' then Char.ofNat 11
  else c

/-- The fixed alphabet used by `.` and by inverted sets
(`RegexSymbol._REGEX_ALPHABET`): upper, lower, digits, then the punctuation
and whitespace run given by its character codes. -/
def REGEX_ALPHABET : List Char :=
  "ABCDEFGHIJKLMNOPQRSTUVWXYZ".data ++ "abcdefghijklmnopqrstuvwxyz".data ++
  "0123456789".data ++
  ([44, 46, 47, 60, 62, 63, 59, 39, 58, 34, 91, 93, 92, 123, 125, 124, 61,
    95, 43, 96, 126, 33, 64, 35, 36, 37, 94, 38, 42, 40, 41, 32, 45].map Char.ofNat)

/-- A part of a parsed regex body, i.e. one implicit child of the
resulting concat: a literal text symbol, a character-set choice, the
shared `.`-alphabet symbol, or a repeat wrapping the preceding part. -/
inductive RPart where
  | text (s : String)
  | textChoice (s : String)
  | alpha
  | rep (child : RPart) (lo hi : ℕ)
deriving Repr, DecidableEq

/-- A token of `RegexSymbol._RE_PARSE`.  Note the token pattern recognizes
only `{n}` / `{n,m}` and `?` as repeat markers — `*` and `+` are absent
from it. -/
inductive RTok where
  | rep (a : ℕ) (b : Option ℕ)
  | maybe
  | set (inverse : Bool)
  | esc (c : Char)
  | dot
  | done
deriving Repr, DecidableEq

/-- The `\{\s*(\d+)\s*(,\s*(\d+)\s*)?\}` branch of `_RE_PARSE`, entered
after the opening brace. -/
def matchRepeatSpec (l : List Char) : Option ((ℕ × Option ℕ) × List Char) :=
  let p := takeDigits (skipPyWs l)
  if p.1.isEmpty then none
  else
    let a := digitsToNat p.1
    match skipPyWs p.2 with
    | c :: r =>
      if c = rbrace then some ((a, none), r)
      else if c = ',' then
        let p2 := takeDigits (skipPyWs r)
        if p2.1.isEmpty then none
        else
          match skipPyWs p2.2 with
          | c2 :: r2 =>
            if c2 = rbrace then some ((a, some (digitsToNat p2.1)), r2) else none
          | [] => none
      else none
    | [] => none

/-- Model of `RegexSymbol._RE_PARSE` applied at the head of the body: repeat spec or
`?`, set opener, escape, dot, or the closing `/`; `none` means the
fall-through literal branch. -/
def matchRParse (l : List Char) : Option (RTok × List Char) :=
  match l with
  | [] => none
  | c :: rest =>
    if c = lbrace then
      match matchRepeatSpec rest with
      | none => none
      | some ((a, b), r) => some (.rep a b, r)
    else if c = '?' then some (.maybe, rest)
    else if c = '[' then
      match rest with
      | c2 :: rest2 => if c2 = '^' then some (.set true, rest2) else some (.set false, rest)
      | [] => some (.set false, rest)
    else if c = '\\' then
      match rest with
      | [] => none
      | c2 :: rest2 => if c2 = Char.ofNat 10 then none else some (.esc c2, rest2)
    else if c = '.' then some (.dot, rest)
    else if c = '/' then some (.done, rest)
    else none

/-- Append one resolved character to the working set, expanding a pending
range: `a-c` appends `c` and then every character from `a` to `c`
inclusive; an empty range (`start > end`) is a parse error. -/
def setAppend (alpha : List Char) (inRange : Bool) (ch : Char) :
    Except Err (List Char) :=
  let alpha' := alpha ++ [ch]
  if inRange then
    let start := (alpha.getLast?).getD ch
    if ch.toNat + 1 ≤ start.toNat then .error (.parse "Empty range in regex")
    else .ok (alpha' ++ (List.range (ch.toNat + 1 - start.toNat)).map
      (fun i => Char.ofNat (start.toNat + i)))
  else .ok alpha'

/-- The character-set loop driven by `_RE_SET` (`\]|-|\\?.`): `]` closes
the set (a pending dash becomes a literal `-`); a dash begins a range and
is an error when the set is still empty or a range is already pending; a
backslash escapes the next character; anything else is appended.  A lone
backslash, an escaped newline, or a bare newline hit
interpreter-level errors in the source and are modelled as host errors. -/
def parseSetLoop : List Char → List Char → Bool → Except Err (List Char × List Char)
  | [], _, _ => .error (.parse "Unterminated set in regex")
  | c :: rest, alpha, inRange =>
    if c = ']' then .ok (if inRange then alpha ++ ['-'] else alpha, rest)
    else if c = '-' then
      if inRange || alpha.isEmpty then .error (.parse "Parse error in regex")
      else parseSetLoop rest alpha true
    else if c = '\\' then
      match rest with
      | [] => .error (.host "IndexError: lone backslash in set")
      | c2 :: rest2 =>
        if c2 = Char.ofNat 10 then .error (.host "IndexError: escaped newline in set")
        else
          match setAppend alpha inRange (escChar c2) with
          | .error e => .error e
          | .ok alpha' => parseSetLoop rest2 alpha' false
    else if c = Char.ofNat 10 then .error (.host "AttributeError: newline in set")
    else
      match setAppend alpha inRange c with
      | .error e => .error e
      | .ok alpha' => parseSetLoop rest alpha' false

/-- First-occurrence deduplication, standing in for Python's `set(alpha)`
(whose iteration order is unspecified; only membership matters to the
claims below). -/
def dedupChars : List Char → List Char → List Char
  | [], _ => []
  | c :: rest, seen =>
    if seen.contains c then dedupChars rest seen
    else c :: dedupChars rest (c :: seen)

/-- The main loop of `RegexSymbol.parse` over the body after the opening
`/`, accumulating the implicit children in order.  A repeat token wraps
the last part unless there is none or it is already a repeat.  Fuel models
the source's unbounded loop; the input length plus one always suffices. -/
def regexParseLoop : ℕ → List RPart → List Char → Except Err (List RPart × List Char)
  | 0, _, _ => .error (.host "RecursionError")
  | fuel + 1, acc, defn =>
    match defn with
    | [] => .error (.parse "Unterminated regular expression")
    | c :: rest =>
      match matchRParse defn with
      | none => regexParseLoop fuel (acc ++ [.text (String.mk [c])]) rest
      | some (tok, rest') =>
        match tok with
        | .done => .ok (acc, rest')
        | .dot => regexParseLoop fuel (acc ++ [.alpha]) rest'
        | .esc ec => regexParseLoop fuel (acc ++ [.text (String.mk [escChar ec])]) rest'
        | .set inv =>
          match parseSetLoop rest' [] false with
          | .error e => .error e
          | .ok (alphaL, rest'') =>
            let sset := dedupChars alphaL []
            let v := if inv then REGEX_ALPHABET.filter (fun c2 => !sset.contains c2)
                     else sset
            regexParseLoop fuel (acc ++ [.textChoice (String.mk v)]) rest''
        | .rep a b =>
          match acc.getLast? with
          | none => .error (.parse "Error parsing regex, unexpected repeat")
          | some (RPart.rep _ _ _) => .error (.parse "Error parsing regex, unexpected repeat")
          | some p => regexParseLoop fuel (acc.dropLast ++ [.rep p a (b.getD a)]) rest'
        | .maybe =>
          match acc.getLast? with
          | none => .error (.parse "Error parsing regex, unexpected repeat")
          | some (RPart.rep _ _ _) => .error (.parse "Error parsing regex, unexpected repeat")
          | some p => regexParseLoop fuel (acc.dropLast ++ [.rep p 0 1]) rest'

/-- Model of `RegexSymbol.parse` on a full `/…/` token: returns the implicit
children and the unconsumed remainder of the definition. -/
def regexParse (str : String) : Except Err (List RPart × List Char) :=
  match str.data with
  | c :: rest =>
    if c = '/' then regexParseLoop (str.length + 1) [] rest
    else .error (.parse "Regex definitions must begin with /")
  | [] => .error (.parse "Regex definitions must begin with /")

/-! ## The repeat token of the definition parser
(`_Symbol._RE_DEFN`, group `repeat`, and `_Symbol._parse` lines 548-569) -/

/-- One bound of the token pattern `(\d+|\*)`: digits give a number, a
literal asterisk is stored as-is. -/
def matchBoundTok (l : List Char) : Option (Bound × List Char) :=
  match l with
  | [] => none
  | c :: rest =>
    if c = '*' then some (.star, rest)
    else
      let p := takeDigits (c :: rest)
      if p.1.isEmpty then none else some (.num (digitsToNat p.1), p.2)

/-- The `[{<]\s*(\d+|\*)\s*(,\s*(\d+|\*)\s*)?[}>]` token: opening delimiter,
first bound, optional second bound, closing delimiter, remainder. -/
def matchDefnRepeat (l : List Char) :
    Option ((Char × Bound × Option Bound × Char) × List Char) :=
  match l with
  | [] => none
  | d :: rest =>
    if d = lbrace ∨ d = '<' then
      match matchBoundTok (skipPyWs rest) with
      | none => none
      | some (a, l2) =>
        match skipPyWs l2 with
        | c :: r =>
          if c = ',' then
            match matchBoundTok (skipPyWs r) with
            | none => none
            | some (b, r2) =>
              match skipPyWs r2 with
              | c2 :: r3 =>
                if c2 = rbrace ∨ c2 = '>' then some ((d, a, some b, c2), r3) else none
              | [] => none
          else if c = rbrace ∨ c = '>' then some ((d, a, none, c), r)
          else none
        | [] => none
    else none

/-- The `_parse` handling of a matched repeat token: mixed delimiters are a
parse error; otherwise the min bound is the first group and the max bound
defaults to it, both stored exactly as matched (so `*` is stored as a
bound); the boolean is true for the `< >` RepeatSample form. -/
def parseRepeatBounds (d : Char) (a : Bound) (b : Option Bound) (c : Char) :
    Except Err (Bool × Bound × Bound) :=
  if (if d = lbrace then rbrace else '>') ≠ c then
    .error (.parse "Repeat symbol mismatch")
  else .ok (d = '<', a, b.getD a)

/-! ## The built-in callables (`Grammar.__init__`, lines 222-227) -/

/-- The `rndint` builtin: `str(random.randint(int(a), int(b)))` — note the
Python `int()` conversions truncate toward zero. -/
def rndintFn (a b : ℚ) (s : RStream) : Except Err (String × RStream) :=
  match pyRandint (pyTrunc a) (pyTrunc b) s with
  | .error e => .error e
  | .ok (n, s') => .ok (toString n, s')

/-! ## Specification-side definition

For the refinement comparison of claim C3 only: the repetition count as
the specification words it, `uniform_int(min, uniform_int(min, max))`,
to be compared against the embedding's `repeatReps`. -/

/-- The repetition count prescribed by the specification for a Repeat
whose bounds are `min` and `max`: `uniform_int(min, uniform_int(min,
max))`.  Defined from the spec's words, not from the source. -/
def specRepeatCount (mn mx : ℕ) (s : RStream) : Except Err (ℕ × RStream) :=
  match pyRandintB (.num mn) (.num mx) s with
  | .error e => .error e
  | .ok (m, s') => pyRandintB (.num mn) (.num m) s'

/-! ## Concrete grammars and tables used by the theorems

Each is a post-construction `Grammar` value (symbol table already
normalized and integrity-checked) or, for the termination-analysis
claims, a pre-analysis table with only the constructor-assigned
`can_terminate` flags. -/

/-- Grammar `root @A` with `A "x"`: a Ref whose target has no captured instance. -/
def gC1 : Grammar :=
  ⟨[("root", ⟨.concat ["@A"], some true, [], 1⟩),
    ("@A", ⟨.ref "A", some true, [], 1⟩),
    ("A", ⟨.text "x", some true, [], 2⟩)], ["A"], [], none⟩

/-- Grammar `root A @A` with `A "y"`: the target is expanded by name before the
Ref, so the untrack machinery captures it and the Ref replays it. -/
def gC1b : Grammar :=
  ⟨[("root", ⟨.concat ["A", "@A"], some true, [], 1⟩),
    ("A", ⟨.text "y", some true, [], 2⟩),
    ("@A", ⟨.ref "A", some true, [], 1⟩)], ["A"], [], none⟩

/-- Grammar `root "x"{0,5}` under limit 0: the length limit is already exceeded
when the Repeat is expanded, and the Repeat can terminate. -/
def gC3 : Grammar :=
  ⟨[("root", ⟨.concat ["r1"], some true, [], 1⟩),
    ("r1", ⟨.repSym ["t1"] (.num 0) (.num 5), some true, [], 1⟩),
    ("t1", ⟨.text "x", some true, [], 1⟩)], [], [], some 0⟩

/-- A grammar whose root concatenates a Text and a Bin value. -/
def gMix : Grammar :=
  ⟨[("root", ⟨.concat ["t", "b"], some true, [], 1⟩),
    ("t", ⟨.text "a", some true, [], 2⟩),
    ("b", ⟨.bin [65], some true, [], 3⟩)], [], [], none⟩

/-- Grammar `root "x"{*}`: the Repeat bounds are the stored `"*"` strings. -/
def gC10 : Grammar :=
  ⟨[("root", ⟨.concat ["rep1"], some true, [], 1⟩),
    ("rep1", ⟨.repSym ["t1"] .star .star, some true, [], 1⟩),
    ("t1", ⟨.text "x", some true, [], 1⟩)], [], [], none⟩

/-- Grammar `root "d"`: a minimal grammar for the determinism witness. -/
def gDet : Grammar :=
  ⟨[("root", ⟨.text "d", some true, [], 1⟩)], [], [], none⟩

/-- The table of `root A` with `A A` before termination analysis. -/
def exAA : List (String × SymEntry) :=
  [("root", ⟨.concat ["A"], none, [], 1⟩),
   ("A", ⟨.concat ["A"], none, [], 2⟩)]

/-- The table of `root A` with `A "x"` before termination analysis. -/
def exOK : List (String × SymEntry) :=
  [("root", ⟨.concat ["A"], none, [], 1⟩),
   ("A", ⟨.text "x", some true, [], 2⟩)]

/-- A Choice whose first alternative recurses through the root and whose
second terminates, before termination analysis. -/
def exChoice : List (String × SymEntry) :=
  [("root", ⟨.choice [(["A"], 1), (["B"], 1)] 2, none, [none, none], 1⟩),
   ("A", ⟨.concat ["root"], none, [], 2⟩),
   ("B", ⟨.text "b", some true, [], 3⟩)]

/-- Helper: one `sample` iteration on a single positive-weight alternative
picks it and the next iteration stops on a zero total. -/
theorem sampleLoop_single {α : Type} (j : ℕ) (v : α) (w u : ℚ) (s : RStream)
    (hw : w ≠ 0) (hlt : u - w < 0) :
    sampleLoop (j + 2) [w] [v] w (u :: s) = .ok ([v], s) := by
  show sampleLoop (Nat.succ (Nat.succ j)) [w] [v] w (u :: s) = .ok ([v], s)
  rw [sampleLoop.eq_2]
  rw [if_neg hw]
  simp only [rdraw, sampleWalk]
  rw [if_pos hlt]
  have hz : sampleLoop (j + 1) ([] : List ℚ) ([] : List α) (w - w) s = .ok ([], s) := by
    rw [sub_self]
    show sampleLoop (Nat.succ j) [] [] 0 s = .ok ([], s)
    rw [sampleLoop.eq_2]
    exact if_pos rfl
  simp only [hz]

/-- Helper: a successful `append` never touches the instances map. -/
theorem GenState.append_instances (st st' : GenState) (v : Value)
    (h : st.append v = .ok st') : st'.instances = st.instances := by
  unfold GenState.append at h
  split at h
  · cases h; rfl
  · split at h
    · cases h; rfl
    · exact Except.noConfusion h

/-! ## The claims -/

/-- Claim C1, counterexample.  The claim states that generating a Ref
whose target has no captured instance produces a fresh value of the
target *and captures it into* `instances[target]`.  On the grammar
`root @A` / `A "x"` the Ref falls through to a fresh generation of `A`
(the output is `"x"`), yet the final instances map still has `A ↦ []`:
`RefSymbol.generate` dispatches the target's `generate` directly, so the
target name is never popped from the stack and the untrack machinery
never runs for it. -/
theorem c1_counterexample :
    gC1.generateFull 20 "root" [] =
      .ok (⟨[], [("A", [])], [.text "x"], 1⟩, []) ∧
    (∀ st : GenState, ∀ s' : RStream,
      gC1.generateFull 20 "root" [] = .ok (st, s') →
      st.instances.lookup "A" = some []) := by
  refine ⟨by rfl, ?_⟩
  intro st s' h
  rw [show gC1.generateFull 20 "root" [] =
      .ok (⟨[], [("A", [])], [.text "x"], 1⟩, []) from by rfl] at h
  cases h
  rfl

/-- Claim C1, amended: a Ref whose target has no captured instance
dispatches the target symbol directly, appending a fresh value to the
output but leaving the instances map unchanged — the fresh value is not
captured.  (Capture happens only when the target itself is expanded from
the stack as a tracked name, as exercised by the witness grammars.) -/
theorem c1_ref_fallthrough (fuel : ℕ) (g : Grammar) (e te : SymEntry)
    (st st' : GenState) (s : RStream) (target ve : String)
    (he : e.kind = .ref target)
    (hinst : st.instances.lookup target = some [])
    (hlook : g.symtab.lookup target = some te)
    (hkind : te.kind = .text ve)
    (hap : st.append (.text ve) = .ok st') :
    symGen (fuel + 2) g e st s = .ok (st', s) ∧ st'.instances = st.instances := by
  constructor
  · simp only [symGen, he, hinst, hlook, hkind, hap]
  · exact GenState.append_instances st st' _ hap

/-- Claim C1, witness for the amended theorem at the `root @A` grammar:
the fallthrough appends the fresh `"x"` and the instances entry for `A`
stays empty. -/
theorem c1_ref_fallthrough_witness :
    symGen 2 gC1 ⟨.ref "A", some true, [], 1⟩ ⟨[], [("A", [])], [], 0⟩ [] =
      .ok (⟨[], [("A", [])], [.text "x"], 1⟩, []) ∧
    (⟨[], [("A", [])], [.text "x"], 1⟩ : GenState).instances =
      (⟨[], [("A", [])], [], 0⟩ : GenState).instances :=
  c1_ref_fallthrough 0 gC1 ⟨.ref "A", some true, [], 1⟩ ⟨.text "x", some true, [], 2⟩
    ⟨[], [("A", [])], [], 0⟩ ⟨[], [("A", [])], [.text "x"], 1⟩ [] "A" "x"
    rfl rfl rfl rfl rfl

/-- Claim C2 (code bug): the regex sub-parser's token pattern
`_RE_PARSE` recognizes only `{n}`, `{n,m}` and `?` as postfix
quantifiers; a `*` or `+` after an atom does not match any token and
falls through to the literal-character branch, producing a Text part
instead of wrapping the atom in a Repeat — contradicting the
`RegexSymbol` docstring (`*` ≡ `{0,5}`, `+` ≡ `{1,5}`).  For contrast,
`?` and `{n,m}` do wrap the preceding atom. -/
theorem c2_regex_star_plus_literal :
    regexParse "/a*/" = .ok ([.text "a", .text "*"], []) ∧
    regexParse "/a+/" = .ok ([.text "a", .text "+"], []) ∧
    regexParse "/a?/" = .ok ([.rep (.text "a") 0 1], []) ∧
    regexParse "/a\x7b2,3\x7d/" = .ok ([.rep (.text "a") 2 3], []) ∧
    (∀ l : List Char, matchRParse ('*' :: l) = none) ∧
    (∀ l : List Char, matchRParse ('+' :: l) = none) := by
  refine ⟨by rfl, by rfl, by rfl, by rfl, fun l => by rfl, fun l => by rfl⟩

/-- Claim C3, counterexample.  Under an already-exceeded length limit a
Repeat that can terminate uses `reps = min` and consumes no randomness:
on `root "x"{0,5}` with limit 0 the output is empty and the stream
`[5, 3]` is untouched, whereas the claimed count
`uniform_int(min, uniform_int(min, max))` evaluates to 3 on that same
stream. -/
theorem c3_counterexample :
    gC3.generate 20 "root" [5, 3] = .ok (.text "", [5, 3]) ∧
    specRepeatCount 0 5 [5, 3] = .ok (3, []) ∧ (3 : ℕ) ≠ 0 := by
  refine ⟨by rfl, by rfl, by decide⟩

/-- Claim C3, amended: when the length limit has been exceeded, a Repeat
that can terminate emits exactly `min` copies of its body without drawing
randomness; only below the limit is the count drawn as
`uniform_int(min, uniform_int(min, max))`; and when the limit has been
exceeded and the symbol cannot terminate, nothing is emitted. -/
theorem c3_repeat_reps :
    (∀ (fuel : ℕ) (g : Grammar) (e : SymEntry) (st : GenState) (s : RStream)
       (cs : List String) (k : ℕ) (hb : Bound),
       e.kind = .repSym cs (.num k) hb →
       g.isLimitExceeded st.length = true → e.canTerm = some true →
       symGen (fuel + 1) g e st s =
         .ok (⟨(List.replicate k cs).flatten.map .sym ++ st.symstack,
               st.instances, st.output, st.length⟩, s)) ∧
    (∀ (fuel : ℕ) (g : Grammar) (e : SymEntry) (st : GenState) (s s' : RStream)
       (cs : List String) (k m r : ℕ),
       e.kind = .repSym cs (.num k) (.num m) →
       g.isLimitExceeded st.length = false →
       specRepeatCount k m s = .ok (r, s') →
       symGen (fuel + 1) g e st s =
         .ok (⟨(List.replicate r cs).flatten.map .sym ++ st.symstack,
               st.instances, st.output, st.length⟩, s')) ∧
    (∀ (fuel : ℕ) (g : Grammar) (e : SymEntry) (st : GenState) (s : RStream)
       (cs : List String) (lo hb : Bound),
       e.kind = .repSym cs lo hb →
       g.isLimitExceeded st.length = true → e.canTerm = none →
       symGen (fuel + 1) g e st s = .ok (st, s)) := by
  refine ⟨?_, ?_, ?_⟩
  · intro fuel g e st s cs k hb he hex hct
    simp only [symGen, he, repeatReps, hex, hct, if_true]
  · intro fuel g e st s s' cs k m r he hex hspec
    unfold specRepeatCount at hspec
    cases h1 : pyRandintB (.num k) (.num m) s with
    | error err => rw [h1] at hspec; exact Except.noConfusion hspec
    | ok p =>
      obtain ⟨m1, s1⟩ := p
      rw [h1] at hspec
      have hspec2 : pyRandintB (.num k) (.num m1) s1 = .ok (r, s') := hspec
      simp [symGen, he, repeatReps, hex, h1, hspec2]
  · intro fuel g e st s cs lo hb he hex hct
    simp [symGen, he, repeatReps, hex, hct]

/-- Claim C3, witness for the amended theorem on the `root "x"{0,5}` /
limit-0 grammar: the exceeded-and-terminating Repeat pushes `min = 0`
copies and leaves the stream alone. -/
theorem c3_repeat_reps_witness :
    symGen 1 gC3 ⟨.repSym ["t1"] (.num 0) (.num 5), some true, [], 1⟩
      ⟨[], [], [], 0⟩ [] =
      .ok (⟨(List.replicate 0 ["t1"]).flatten.map .sym ++ [], [], [], 0⟩, []) :=
  c3_repeat_reps.1 0 gC3 ⟨.repSym ["t1"] (.num 0) (.num 5), some true, [], 1⟩
    ⟨[], [], [], 0⟩ [] ["t1"] 0 (.num 5) rfl rfl rfl

/-- Claim C4, counterexample.  The claim states `sample(k)` errors out
when `k` exceeds the number of non-zero-weight alternatives; in fact
`sample 2` on a single alternative of weight 1 returns `["a"]` — fewer
than `k` results — without any error, because the `while k and total`
loop simply stops once the running total reaches zero. -/
theorem c4_counterexample :
    WeightedChoice.sample (⟨1, ["a"], [1]⟩ : WeightedChoice String) 2 [0] =
      .ok (["a"], []) ∧ (1 : ℕ) < 2 := by
  constructor
  · show sampleLoop (0 + 2) [(1 : ℚ)] ["a"] 1 ((0 : ℚ) :: []) = .ok (["a"], [])
    exact sampleLoop_single 0 "a" 1 0 [] one_ne_zero (by norm_num)
  · decide

/-- Claim C4, amended: `choice` does raise the `AssertionError` when every
weight is zero (no non-zero-weight alternative to pick), but `sample(k)`
with `k` exceeding the number of non-zero-weight alternatives returns the
positive-weight alternatives — fewer than `k` — and no error. -/
theorem c4_sample_underfill :
    (∀ (u : ℚ) (vs : List (List String)) (ws : List ℚ),
       0 ≤ u → (∀ w ∈ ws, w = 0) →
       chooseWalk ws vs u = .error (.assertion "Too much total weight?")) ∧
    (∀ (v : String) (w u : ℚ) (k : ℕ) (s : RStream),
       0 < w → 2 ≤ k → 0 ≤ u → u < w →
       WeightedChoice.sample ⟨w, [v], [w]⟩ k (u :: s) = .ok ([v], s)) := by
  constructor
  · intro u vs ws
    induction ws generalizing vs u with
    | nil => intro _ _; cases vs <;> rfl
    | cons w ws ih =>
      intro hu hz
      cases vs with
      | nil => rfl
      | cons v vs =>
        have hw : w = 0 := hz w (List.mem_cons_self w ws)
        simp only [chooseWalk, hw, sub_zero]
        rw [if_neg (by exact absurd · (not_lt.mpr hu))]
        exact ih u vs hu (fun x hx => hz x (List.mem_cons_of_mem _ hx))
  · intro v w u k s hw hk hu huw
    obtain ⟨j, rfl⟩ : ∃ j, k = j + 2 := ⟨k - 2, by omega⟩
    exact sampleLoop_single j v w u s hw.ne' (by linarith)

/-- Claim C4, witness: a zero-weight-only walk errors, and `sample 3` on
one alternative returns a single result without error. -/
theorem c4_sample_underfill_witness :
    chooseWalk [0, 0] [["x"], ["y"]] 0 = .error (.assertion "Too much total weight?") ∧
    WeightedChoice.sample (⟨1, ["a"], [1]⟩ : WeightedChoice String) 3 ((1/2) :: [9]) =
      .ok (["a"], [9]) :=
  ⟨c4_sample_underfill.1 0 [["x"], ["y"]] [0, 0] (by norm_num) (by decide),
   c4_sample_underfill.2 "a" 1 (1/2) 3 [9] (by norm_num) (by norm_num)
     (by norm_num) (by norm_num)⟩

/-- Claim C5, counterexample.  `rndint` converts its arguments with
Python `int()`, which truncates toward zero, not `floor`: at
`a = b = -5/2` the produced value is `"-2"`, while the claimed interval
`[⌊a⌋, ⌊b⌋]` is `[-3, -3]`, so the result would have to be `"-3"`. -/
theorem c5_counterexample :
    rndintFn (-5/2) (-5/2) [0] = .ok ("-2", []) ∧
    ((-5/2 : ℚ).floor = -3) ∧ ("-2" ≠ "-3") := by
  have hT : pyTrunc (-5/2) = -2 := by norm_num [pyTrunc, Rat.floor_def']
  have h1 : pyRandint (-2) (-2) [0] = .ok (-2, []) := by
    unfold pyRandint
    rw [if_neg (by decide : ¬ (-2 : ℤ) < -2)]
    simp only [rdraw]
    norm_num [Rat.floor_def']
  refine ⟨?_, by norm_num [Rat.floor_def'], by decide⟩
  unfold rndintFn
  rw [hT, h1]
  rfl

/-- Claim C5, amended: `rndint(a, b)` returns the decimal representation
of an integer in the closed interval `[trunc(a), trunc(b)]`, where
`trunc` rounds toward zero (so it agrees with floor on non-negative
arguments only). -/
theorem c5_rndint_trunc (a b q : ℚ) (s : RStream)
    (h : pyTrunc a ≤ pyTrunc b) :
    ∃ n : ℤ, rndintFn a b (q :: s) = .ok (toString n, s) ∧
      pyTrunc a ≤ n ∧ n ≤ pyTrunc b := by
  refine ⟨pyTrunc a + (q.floor - pyTrunc a) % (pyTrunc b - pyTrunc a + 1), ?_, ?_, ?_⟩
  · unfold rndintFn pyRandint
    rw [if_neg (not_lt.mpr h)]
    rfl
  · have h1 := Int.emod_nonneg (q.floor - pyTrunc a)
      (by omega : pyTrunc b - pyTrunc a + 1 ≠ 0)
    omega
  · have h2 := Int.emod_lt_of_pos (q.floor - pyTrunc a)
      (by omega : (0 : ℤ) < pyTrunc b - pyTrunc a + 1)
    omega

/-- Claim C5, witness for the amended theorem at `a = -5/2`, `b = 3`. -/
theorem c5_rndint_trunc_witness :
    ∃ n : ℤ, rndintFn (-5/2) 3 (0 :: []) = .ok (toString n, []) ∧
      pyTrunc (-5/2) ≤ n ∧ n ≤ pyTrunc 3 :=
  c5_rndint_trunc (-5/2) 3 0 [] (by norm_num [pyTrunc, Rat.floor_def'])

/-- Claim C6 (code bug): in a regex character set a trailing `-` is
literal (`[a-]` yields the set containing `a` and `-`), but a leading `-`
raises a `ParseError` — the set loop rejects a dash while `alpha` is
still empty — contradicting the `RegexSymbol` docstring, which promises
that the dash can be matched "by putting it first or last in the
set". -/
theorem c6_charset_dash :
    regexParse "/[a-]/" = .ok ([.textChoice "a-"], []) ∧
    "a-".data.contains '-' = true ∧
    regexParse "/[-a]/" = .error (.parse "Parse error in regex") := by
  refine ⟨by rfl, by decide, by rfl⟩

/-- Claim C7 (confirmed): every `append` checks the new value's type
against that of the first value in the output buffer and raises a
`GenerationError` on a mismatch; an empty buffer accepts any value; and
the concrete grammar concatenating a Text and a Bin symbol fails at
generation time with exactly that error. -/
theorem c7_output_type :
    (∀ (st : GenState) (v v0 : Value) (rest : List Value),
       st.output = v0 :: rest → v.sameType v0 = false →
       st.append v = .error (.generation ("Wrong value type generated, expecting " ++
         v0.typeName ++ ", got " ++ v.typeName))) ∧
    (∀ (st : GenState) (v : Value), st.output = [] →
       st.append v = .ok ⟨st.symstack, st.instances, [v], st.length + v.len⟩) ∧
    gMix.generate 20 "root" [] =
      .error (.generation "Wrong value type generated, expecting str, got bytes") := by
  refine ⟨?_, ?_, by rfl⟩
  · intro st v v0 rest hout hsame
    unfold GenState.append
    rw [hout]
    simp [hsame]
  · intro st v hout
    unfold GenState.append
    rw [hout]

/-- Claim C7, witness: appending bytes after a string errors. -/
theorem c7_output_type_witness :
    GenState.append ⟨[], [], [Value.text "a"], 1⟩ (.bin [1]) =
      .error (.generation ("Wrong value type generated, expecting " ++
        (Value.text "a").typeName ++ ", got " ++ (Value.bin [1]).typeName)) :=
  c7_output_type.1 ⟨[], [], [Value.text "a"], 1⟩ (.bin [1]) (.text "a") [] rfl rfl

/-- Claim C8 (confirmed): the termination marking iterates to a fixpoint
(a further pass over the fully-iterated `root A` / `A A` table changes
nothing) and the check then raises an `IntegrityError` for a symbol that
cannot terminate and has no terminating child — in particular the
`root A` / `A A` grammar fails with the no-paths-to-termination
`IntegrityError`.  A terminating Concat table passes, and a Choice
becomes terminating exactly when some alternative has all children
terminating (its per-alternative flags record which). -/
theorem c8_termination :
    sanityTerminate exAA =
      .error (.integrity "Symbol has no paths to termination (infinite recursion?): root") ∧
    termPass (termLoop 3 exAA) = (termLoop 3 exAA, false) ∧
    sanityTerminate exOK =
      .ok [("root", ⟨.concat ["A"], some true, [], 1⟩),
           ("A", ⟨.text "x", some true, [], 2⟩)] ∧
    sanityTerminate exChoice =
      .ok [("root", ⟨.choice [(["A"], 1), (["B"], 1)] 2, some true, [none, some true], 1⟩),
           ("A", ⟨.concat ["root"], some true, [], 2⟩),
           ("B", ⟨.text "b", some true, [], 3⟩)] := by
  refine ⟨by rfl, by rfl, by rfl, by rfl⟩

/-- Claim C9 (confirmed): generation is a deterministic function of the
grammar, the start symbol, and the random-source state — the embedding
threads the random stream explicitly, so two runs with equal inputs and
equal streams produce identical results. -/
theorem c9_deterministic (g g2 : Grammar) (fuel : ℕ) (start start2 : String)
    (s s2 : RStream) (hg : g = g2) (hstart : start = start2) (hs : s = s2) :
    Grammar.generate g fuel start s = Grammar.generate g2 fuel start2 s2 := by
  subst hg; subst hstart; subst hs; rfl

/-- Claim C9, witness at the `root "d"` grammar. -/
theorem c9_deterministic_witness :
    Grammar.generate gDet 20 "root" [] = Grammar.generate gDet 20 "root" [] :=
  c9_deterministic gDet gDet 20 "root" "root" [] [] rfl rfl rfl

/-- Claim C10 (confirmed): the definition parser's repeat token accepts a
`*` bound and stores it as-is (min and max both become the star bound for
`{*}`), construction raises no error, and generating `root "x"{*}` then
fails with a host-level `TypeError` from the random-integer draw — an
error that is none of the three documented kinds. -/
theorem c10_star_bound :
    matchDefnRepeat [lbrace, '*', rbrace] = some ((lbrace, .star, none, rbrace), []) ∧
    parseRepeatBounds lbrace .star none rbrace = .ok (false, .star, .star) ∧
    gC10.generate 20 "root" [0] =
      .error (.host "TypeError: randint bound is str, not int") ∧
    Err.isDocumented (.host "TypeError: randint bound is str, not int") = false := by
  refine ⟨by rfl, by rfl, by rfl, by rfl⟩

end Avalanche
